import Mathlib

/-!
Shallow embedding of src/sale.py from the trytond-magento module: the Sale
order-import reconciliation workflow, its persisted state, and the status
synchronisation logic.

External collaborators (party/address/currency/product/carrier/tax/gateway
resolvers, the magento RPC client, and the channel's workflow-state mapping)
are modelled as oracle functions gathered in an `Env` record.  The persisted
store is an explicit `DB` record threaded through every operation.  Raised
Python exceptions are modelled with `Except PyError`; since every import runs
inside one ambient transaction, an operation that raises returns only the
error (the transaction rolls its writes back).
-/

deriving instance DecidableEq for Except

namespace Magento

/-- Python exception values that flow through src/sale.py: an xmlrpclib.Fault
with its numeric faultCode, a trytond UserError, an AttributeError raised by
dereferencing None, and a database uniqueness-constraint violation. -/
inductive PyError
  | fault (code : Int) (msg : String)
  | userError (msg : String)
  | attrError
  | constraintError
deriving DecidableEq

/-- Python truthiness of a nullable integer field: None and 0 are falsy. -/
def pyTruthyOptInt : Option Int → Bool
  | none => false
  | some n => n != 0

/-- Python truthiness of a nullable string field: None and the empty string
are falsy. -/
def pyTruthyOptStr : Option String → Bool
  | none => false
  | some s => s != ""

/-- The {action, invoice_method, shipment_method} triple returned by the
channel's `get_tryton_action` workflow-state mapping. -/
structure TrytonAction where
  action : String
  invoice_method : String
  shipment_method : String
deriving DecidableEq

/-- The fragment of a magento address record that src/sale.py reads
directly (guest-party name fallback); the rest is consumed opaquely by the
external address resolver. -/
structure AddressData where
  firstname : String
  lastname : String
deriving DecidableEq

/-- One entry of `order_data['items']`, with the fields src/sale.py reads.
`product_options` is the list of keys of the item's product-options dict
(the code only tests `'bundle_option' in item['product_options']`).
Decimal-typed fields arrive already parsed as rationals. -/
structure ItemData where
  item_id : Int
  sku : String
  name : String
  price : Rat
  qty_ordered : Rat
  product_id : Int
  parent_item_id : Option Int
  product_options : List String
  comments : Option String
  tax_percent : Option Rat
deriving DecidableEq

/-- `order_data['payment']` as read by create_payment_using_magento_data. -/
structure PaymentData where
  method : String
  payment_id : Int
  amount_paid : Option Rat
deriving DecidableEq

/-- The magento order payload, restricted to the fields src/sale.py reads. -/
structure OrderData where
  order_id : Int
  increment_id : String
  order_currency_code : String
  customer_id : Int
  customer_firstname : String
  customer_lastname : String
  customer_email : String
  billing_address : Option AddressData
  shipping_address : Option AddressData
  created_at : String
  state : String
  items : List ItemData
  shipping_method : Option String
  shipping_description : String
  shipping_amount : Option Rat
  discount_amount : Rat
  discount_description : String
  payment : PaymentData
deriving DecidableEq

/-- A resolved product record: the code uses its identity as a foreign key
and reads `product.name` for the line-description fallback. -/
structure ProductRec where
  id : Nat
  name : String
deriving DecidableEq

/-- The sale.line record built by get_sale_line_using_magento_data /
get_shipping_line_data_using_magento_data /
get_discount_line_data_using_magento_data.  Synthetic shipping and discount
lines carry no magento_id. -/
structure SaleLine where
  sale : Nat
  magento_id : Option Int
  description : String
  unit_price : Rat
  unit : Nat
  quantity : Rat
  note : Option String
  product : Option Nat
  taxes : List Nat
deriving DecidableEq

/-- The sale.sale record with the fields src/sale.py creates or reads.
`magento_id` is the remote numeric order id (nullable, cleared on copy);
`channel_identifier` is the remote increment id; `state` is the local
workflow state ('draft' on creation). -/
structure Sale where
  id : Nat
  reference : String
  channel_identifier : String
  sale_date : String
  party : Nat
  currency : Nat
  invoice_address : Option Nat
  shipment_address : Option Nat
  magento_id : Option Int
  channel : Nat
  invoice_method : String
  shipment_method : String
  carrier : Option Nat
  state : String
  lines : List SaleLine
deriving DecidableEq

/-- A channel.exception quarantine record: polymorphic origin reference
(model name and record id), free-text log, channel id. -/
structure ChannelException where
  origin : String × Nat
  log : String
  channel : Nat
deriving DecidableEq

/-- A sale.payment record as created by create_payment_using_magento_data.
The nested payment transaction and its `safe_post` are external gateway
behaviour and are not tracked beyond the payment record itself. -/
structure Payment where
  sale : Nat
  gateway : Nat
  magento_id : Int
  amount : Rat
  credit_account : Nat
deriving DecidableEq

/-- A carrier record reachable from a magento.instance.carrier mapping:
the code reads `magento_carrier.carrier.id` and
`magento_carrier.carrier.carrier_product`. -/
structure CarrierRec where
  id : Nat
  carrier_product : Nat
deriving DecidableEq

/-- A magento.instance.carrier mapping; its `carrier` link may be unset. -/
structure MagentoCarrier where
  carrier : Option CarrierRec
deriving DecidableEq

/-- The persisted store threaded through every operation: the sale records,
the quarantine records, the payment records, and the id counter the
persistence layer uses for newly inserted sales. -/
structure DB where
  sales : List Sale
  exceptions : List ChannelException
  payments : List Payment
  nextId : Nat
deriving DecidableEq

/-- The external collaborators of src/sale.py, as oracle functions: the
ambient transaction context (`current_channel`), the channel's configuration
and resolvers, the party/address/currency resolvers, and the magento RPC
client.  `process_to_channel_state` returns the new local workflow state on
success and the UserError message on a business-rule rejection. -/
structure Env where
  current_channel : Nat
  magento_order_pfx : String
  default_uom : Nat
  get_tryton_action : String → TrytonAction
  search_currency : String → Nat
  find_or_create_party : Int → Nat
  create_guest_party : Option String → Option String → String → Nat
  find_or_create_address : Nat → AddressData → Nat
  get_product : String → Except PyError ProductRec
  get_taxes : Rat → List Nat
  find_gateway : String → Option Nat
  party_receivable : Nat → Nat
  find_magento_carrier : String → Option MagentoCarrier
  process_to_channel_state : String → Sale → Except String String
  order_info : String → OrderData
  order_cancel : String → Except PyError Unit
  order_addcomment : String → String → Except PyError Unit
  validate_magento_channel : Except PyError Unit

/-- Two sale records clash on the UNIQUE(magento_id, channel) key registered
in Sale.__setup__; per SQL semantics a NULL magento_id never clashes. -/
def keyClash (a b : Sale) : Bool :=
  a.channel == b.channel && a.magento_id.isSome && a.magento_id == b.magento_id

/-- Modelled from the spec: the persistence layer's insert of a new sale
record, enforcing the UNIQUE(magento_id, channel) constraint that
Sale.__setup__ registers (the constraint itself is enforced by the external
database, not by code under src/).  On success the record receives a fresh
id; on a duplicate key the insert is rejected. -/
def saveNew (s : Sale) (db : DB) : Except PyError (Sale × DB) :=
  if db.sales.any (fun t => keyClash t s) then .error .constraintError
  else
    let s1 := { s with id := db.nextId }
    .ok (s1, { db with sales := db.sales ++ [s1], nextId := db.nextId + 1 })

/-- Modelled from the spec: the persistence layer's update of an already
persisted sale record, matched by id. -/
def saveUpdate (s : Sale) (db : DB) : DB :=
  { db with sales := db.sales.map (fun t => if t.id == s.id then s else t) }

/-- Sale.find_using_magento_data: search by (magento_id, current channel
from the transaction context) and return the first match, else None. -/
def find_using_magento_data (env : Env) (od : OrderData) (db : DB) : Option Sale :=
  (db.sales.filter (fun s =>
    s.magento_id == some od.order_id && s.channel == env.current_channel)).head?

/-- Sale.find_using_magento_increment_id: search by (channel_identifier,
current magento channel) and return the first match, else None. -/
def find_using_magento_increment_id (env : Env) (incId : String) (db : DB) :
    Option Sale :=
  (db.sales.filter (fun s =>
    s.channel_identifier == incId && s.channel == env.current_channel)).head?

/-- Sale.get_sale_using_magento_data: map the payload to an unsaved sale
draft (id 0, empty line set, local state 'draft'). -/
def get_sale_using_magento_data (env : Env) (od : OrderData) : Sale :=
  let party : Nat :=
    if od.customer_id ≠ 0 then env.find_or_create_party od.customer_id
    else
      let firstname : Option String :=
        if od.customer_firstname ≠ "" then some od.customer_firstname
        else od.billing_address.map (fun a => a.firstname)
      let lastname : Option String :=
        if od.customer_lastname ≠ "" then some od.customer_lastname
        else od.billing_address.map (fun a => a.lastname)
      env.create_guest_party firstname lastname od.customer_email
  let party_invoice_address : Option Nat :=
    od.billing_address.map (fun a => env.find_or_create_address party a)
  let party_shipping_address : Option Nat :=
    od.shipping_address.map (fun a => env.find_or_create_address party a)
  let ta := env.get_tryton_action od.state
  -- no shipping address is assumed to mean no shipment is needed, so the
  -- method is forced to manual
  let shipment_method :=
    if party_shipping_address.isNone then "manual" else ta.shipment_method
  { id := 0,
    reference := env.magento_order_pfx ++ od.increment_id,
    channel_identifier := od.increment_id,
    sale_date := ((od.created_at.splitOn " ").filter (fun w => w ≠ "")).headD "",
    party := party,
    currency := env.search_currency od.order_currency_code,
    invoice_address := party_invoice_address,
    shipment_address :=
      match party_shipping_address with
      | some a => some a
      | none => party_invoice_address,
    magento_id := some od.order_id,
    channel := env.current_channel,
    invoice_method := ta.invoice_method,
    shipment_method := shipment_method,
    carrier := none,
    state := "draft",
    lines := [] }

/-- The evaluation of `item['name'] or product.name` in
get_sale_line_using_magento_data: when the item name is empty and the
product reference is None, the attribute access raises. -/
def lineDescription (item : ItemData) (product : Option ProductRec) :
    Except PyError String :=
  if item.name ≠ "" then .ok item.name
  else
    match product with
    | some p => .ok p.name
    | none => .error PyError.attrError

/-- The `SaleLine(**{...})` construction of get_sale_line_using_magento_data
together with the conditional tax attachment; evaluating the description may
raise when the product reference is None and the item name is empty. -/
def mkItemLine (env : Env) (sale : Sale) (item : ItemData)
    (product : Option ProductRec) (db : DB) :
    Except PyError (Option SaleLine × DB) :=
  match lineDescription item product with
  | .error e => .error e
  | .ok desc =>
    .ok (some { sale := sale.id,
                magento_id := some item.item_id,
                description := desc,
                unit_price := item.price,
                unit := env.default_uom,
                quantity := item.qty_ordered,
                note := item.comments,
                product := product.map (fun p => p.id),
                taxes :=
                  match item.tax_percent with
                  | some t => if t ≠ 0 then env.get_taxes (t / 100) else []
                  | none => [] }, db)

/-- Sale.get_sale_line_using_magento_data: build a line for a top-level
item; a product-not-found fault (code 101) is quarantined as a
ChannelException and the line is built with a null product; any other fault
from the product resolver propagates. -/
def get_sale_line_using_magento_data (env : Env) (sale : Sale) (item : ItemData)
    (db : DB) : Except PyError (Option SaleLine × DB) :=
  if pyTruthyOptInt item.parent_item_id then .ok (none, db)
  else
    match env.get_product item.sku with
    | .ok p => mkItemLine env sale item (some p) db
    | .error (PyError.fault c m) =>
      if c = 101 then
        mkItemLine env sale item none { db with exceptions := db.exceptions ++
          [{ origin := ("sale.sale", sale.id),
             log := "Product #" ++ toString item.product_id ++ " does not exist",
             channel := sale.channel }] }
      else .error (PyError.fault c m)
    | .error e => .error e

/-- An item is a bundle child when its product options carry the
bundle_option key and it has a truthy parent item id. -/
def isBundleChild (item : ItemData) : Bool :=
  item.product_options.contains "bundle_option" && pyTruthyOptInt item.parent_item_id

/-- One iteration of the item loop in add_lines_using_magento_data: a bundle
child is skipped outright; otherwise the built line (when any) is appended. -/
def processItem (env : Env) (sale : Sale) (item : ItemData) (acc : List SaleLine)
    (db : DB) : Except PyError (List SaleLine × DB) :=
  if isBundleChild item then .ok (acc, db)
  else
    match get_sale_line_using_magento_data env sale item db with
    | .error e => .error e
    | .ok (some l, db1) => .ok (acc ++ [l], db1)
    | .ok (none, db1) => .ok (acc, db1)

/-- The item loop of add_lines_using_magento_data. -/
def foldItems (env : Env) (sale : Sale) :
    List ItemData → List SaleLine → DB → Except PyError (List SaleLine × DB)
  | [], acc, db => .ok (acc, db)
  | item :: rest, acc, db =>
    match processItem env sale item acc db with
    | .error e => .error e
    | .ok (acc1, db1) => foldItems env sale rest acc1 db1

/-- Sale.get_carrier_data_from_order_data: the carrier code is the text of
the shipping method before the first underscore. -/
def get_carrier_data_from_order_data (od : OrderData) : String :=
  ((od.shipping_method.getD "").splitOn "_").headD ""

/-- Sale.get_shipping_line_data_using_magento_data: build the synthetic
shipping line; when a carrier mapping with a linked carrier exists, the
sale's carrier is set and the line's product is the carrier product. -/
def get_shipping_line_data_using_magento_data (env : Env) (sale : Sale)
    (od : OrderData) : SaleLine × Sale :=
  let mc := env.find_magento_carrier (get_carrier_data_from_order_data od)
  let pc : Option Nat × Sale :=
    match mc with
    | some c =>
      match c.carrier with
      | some cr => (some cr.carrier_product, { sale with carrier := some cr.id })
      | none => (none, sale)
    | none => (none, sale)
  ({ sale := sale.id,
     magento_id := none,
     description :=
       if od.shipping_description ≠ "" then od.shipping_description
       else "Magento Shipping",
     unit_price := od.shipping_amount.getD 0,
     unit := env.default_uom,
     quantity := 1,
     note := some ("Magento Shipping - " ++ od.shipping_method.getD "" ++ " - " ++
       od.shipping_description),
     product := pc.1,
     taxes := [] }, pc.2)

/-- Sale.get_discount_line_data_using_magento_data: build the synthetic
discount line. -/
def get_discount_line_data_using_magento_data (env : Env) (sale : Sale)
    (od : OrderData) : SaleLine :=
  { sale := sale.id,
    magento_id := none,
    description :=
      if od.discount_description ≠ "" then od.discount_description
      else "Magento Discount",
    unit_price := od.discount_amount,
    unit := env.default_uom,
    quantity := 1,
    note := some od.discount_description,
    product := none,
    taxes := [] }

/-- The tail of add_lines_using_magento_data: append the synthetic shipping
line (when a shipping method is present, also possibly setting the sale's
carrier) and the synthetic discount line (when the discount amount is
nonzero), and store the collected lines on the sale. -/
def addExtraLines (env : Env) (od : OrderData) (sale : Sale)
    (ls : List SaleLine) : Sale :=
  let withShip : List SaleLine × Sale :=
    if pyTruthyOptStr od.shipping_method then
      let ps := get_shipping_line_data_using_magento_data env sale od
      (ls ++ [ps.1], ps.2)
    else (ls, sale)
  let ls2 :=
    if od.discount_amount ≠ 0 then
      withShip.1 ++ [get_discount_line_data_using_magento_data env withShip.2 od]
    else withShip.1
  { withShip.2 with lines := ls2 }

/-- Sale.add_lines_using_magento_data: run the item loop, then append the
synthetic shipping and discount lines.  The call to
Bom.find_or_create_bom_for_magento_bundle is an external side effect on
production records and touches none of the state modelled here. -/
def add_lines_using_magento_data (env : Env) (od : OrderData) (sale : Sale)
    (db : DB) : Except PyError (Sale × DB) :=
  match foldItems env sale od.items sale.lines db with
  | .error e => .error e
  | .ok (ls, db1) => .ok (addExtraLines env od sale ls, db1)

/-- Sale.create_payment_using_magento_data: create a payment only when a
gateway mapping exists for the remote payment method and a nonzero paid
amount is reported.  The nested payment transaction and its posting are
external gateway behaviour. -/
def create_payment_using_magento_data (env : Env) (sale : Sale)
    (pd : PaymentData) (db : DB) : DB :=
  match env.find_gateway pd.method with
  | none => db
  | some gw =>
    match pd.amount_paid with
    | none => db
    | some amt =>
      if amt ≠ 0 then
        { db with payments := db.payments ++
          [{ sale := sale.id, gateway := gw, magento_id := pd.payment_id,
             amount := amt, credit_account := env.party_receivable sale.party }] }
      else db

/-- Sale.create_using_magento_data: skip when the mapped workflow action is
do_not_import; otherwise map the payload, insert the sale, add the lines,
update, create the payment, then attempt the state transition — a UserError
there is caught and quarantined as exactly one ChannelException while the
sale stays persisted in its pre-transition state. -/
def create_using_magento_data (env : Env) (od : OrderData) (db : DB) :
    Except PyError (Option Sale × DB) :=
  if (env.get_tryton_action od.state).action = "do_not_import" then .ok (none, db)
  else
    match saveNew (get_sale_using_magento_data env od) db with
    | .error e => .error e
    | .ok (sale1, db1) =>
      match add_lines_using_magento_data env od sale1 db1 with
      | .error e => .error e
      | .ok (sale2, db2) =>
        let db3 := saveUpdate sale2 db2
        let db4 := create_payment_using_magento_data env sale2 od.payment db3
        match env.process_to_channel_state od.state sale2 with
        | .ok newstate =>
          let sale3 := { sale2 with state := newstate }
          .ok (some sale3, saveUpdate sale3 db4)
        | .error msg =>
          .ok (some sale2, { db4 with exceptions := db4.exceptions ++
            [{ origin := ("sale.sale", sale2.id),
               log := "Error occurred on transitioning to state " ++
                 (env.get_tryton_action od.state).action ++
                 ".\nError Message: " ++ msg,
               channel := sale2.channel }] })

/-- Sale.find_or_create_using_magento_data: look up by (magento_id,
current channel); create only when not found. -/
def find_or_create_using_magento_data (env : Env) (od : OrderData) (db : DB) :
    Except PyError (Option Sale × DB) :=
  match find_using_magento_data env od db with
  | some s => .ok (some s, db)
  | none => create_using_magento_data env od db

/-- Sale.find_or_create_using_magento_increment_id: look up by
(channel_identifier, channel); when absent, fetch the payload from the
remote platform and run the full create path. -/
def find_or_create_using_magento_increment_id (env : Env) (incId : String)
    (db : DB) : Except PyError (Option Sale × DB) :=
  match find_using_magento_increment_id env incId db with
  | some s => .ok (some s, db)
  | none => create_using_magento_data env (env.order_info incId) db

/-- Sale.export_order_status_to_magento: push a local terminal state to the
remote platform.  The except block around the remote call returns self when
the faultCode is 103 and otherwise falls through — without a re-raise — to
the same `return self`, so every xmlrpclib.Fault is swallowed; non-Fault
errors propagate. -/
def export_order_status_to_magento (env : Env) (sale : Sale) :
    Except PyError Sale :=
  if pyTruthyOptInt sale.magento_id = false then .ok sale
  else
    match env.validate_magento_channel with
    | .error e => .error e
    | .ok _ =>
      let callResult : Except PyError Unit :=
        if sale.state = "cancel" then env.order_cancel sale.channel_identifier
        else if sale.state = "done" then
          env.order_addcomment sale.channel_identifier "complete"
        else .ok ()
      match callResult with
      | .ok _ => .ok sale
      | .error (PyError.fault c _) =>
        -- `if exception.faultCode == 103: return self` and then the
        -- fall-through `return self`: both branches return the sale
        if c = 103 then .ok sale else .ok sale
      | .error e => .error e

/-- Modelled from the spec: the stock.shipment.out workflow states
draft → waiting → assigned → packed → done; the shipment records and their
transition methods (wait, assign, pack, done) live in the external stock
module, not under src/. -/
inductive ShipmentState
  | draft
  | waiting
  | assigned
  | packed
  | done
deriving DecidableEq

/-- The canonical shipment state sequence of the spec. -/
def shipmentSeq : List ShipmentState :=
  [ShipmentState.draft, ShipmentState.waiting, ShipmentState.assigned,
   ShipmentState.packed, ShipmentState.done]

/-- Position of a shipment state in the canonical sequence. -/
def stateIdx : ShipmentState → Nat
  | ShipmentState.draft => 0
  | ShipmentState.waiting => 1
  | ShipmentState.assigned => 2
  | ShipmentState.packed => 3
  | ShipmentState.done => 4

/-- The per-shipment body of update_order_status_from_magento: four
sequential (non-exclusive) state tests, each performing one transition from
the state the shipment is currently in.  Returns the final state together
with the trace of states entered, in order. -/
def advanceShipmentTrace (s : ShipmentState) : ShipmentState × List ShipmentState :=
  let p1 : ShipmentState × List ShipmentState :=
    if s = ShipmentState.draft then (ShipmentState.waiting, [ShipmentState.waiting])
    else (s, [])
  let p2 : ShipmentState × List ShipmentState :=
    if p1.1 = ShipmentState.waiting then
      (ShipmentState.assigned, p1.2 ++ [ShipmentState.assigned])
    else p1
  let p3 : ShipmentState × List ShipmentState :=
    if p2.1 = ShipmentState.assigned then
      (ShipmentState.packed, p2.2 ++ [ShipmentState.packed])
    else p2
  if p3.1 = ShipmentState.packed then (ShipmentState.done, p3.2 ++ [ShipmentState.done])
  else p3

/-- Sale.update_order_status_from_magento: when the remote order status is
complete, advance every shipment of the sale through the sequential
catch-up; otherwise nothing happens. -/
def update_order_status_from_magento (status : String)
    (shipments : List ShipmentState) : List ShipmentState :=
  if status = "complete" then shipments.map (fun s => (advanceShipmentTrace s).1)
  else shipments

/-- The dedup invariant of the spec: no two persisted sales share a
(non-null magento_id, channel) key. -/
def salesKeyUnique (l : List Sale) : Prop :=
  l.Pairwise (fun a b => keyClash a b = false)

/-- Well-formedness of the store: every persisted sale's id is below the
persistence layer's id counter, and the (magento_id, channel) dedup
invariant holds. -/
def WF (db : DB) : Prop :=
  (∀ s ∈ db.sales, s.id < db.nextId) ∧ salesKeyUnique db.sales

/-! ### Concrete fixtures used by the witness theorems -/

/-- A concrete payment payload. -/
def testPayment : PaymentData :=
  { method := "check", payment_id := 11, amount_paid := none }

/-- A concrete top-level, non-bundle item with a non-empty name. -/
def testItem : ItemData :=
  { item_id := 21, sku := "X", name := "Item X", price := 10, qty_ordered := 2,
    product_id := 31, parent_item_id := none, product_options := [],
    comments := none, tax_percent := none }

/-- A concrete order payload with no shipping address. -/
def testOrder : OrderData :=
  { order_id := 5001, increment_id := "100005001", order_currency_code := "USD",
    customer_id := 0, customer_firstname := "A", customer_lastname := "B",
    customer_email := "ab@example.com",
    billing_address := some { firstname := "A", lastname := "B" },
    shipping_address := none, created_at := "2014-01-01 10:00:00",
    state := "pending", items := [testItem], shipping_method := none,
    shipping_description := "", shipping_amount := none, discount_amount := 0,
    discount_description := "", payment := testPayment }

/-- An empty store. -/
def emptyDB : DB := { sales := [], exceptions := [], payments := [], nextId := 1 }

/-- A concrete persisted sale matching testOrder in channel 1. -/
def testSale : Sale :=
  { id := 10, reference := "MGN-100005001", channel_identifier := "100005001",
    sale_date := "2014-01-01", party := 2, currency := 1,
    invoice_address := some 3, shipment_address := some 3,
    magento_id := some 5001, channel := 1, invoice_method := "order",
    shipment_method := "manual", carrier := none, state := "draft",
    lines := [] }

/-- A concrete environment whose oracles all succeed. -/
def testEnv : Env :=
  { current_channel := 1,
    magento_order_pfx := "MGN-",
    default_uom := 1,
    get_tryton_action := fun _ =>
      { action := "process", invoice_method := "order", shipment_method := "order" },
    search_currency := fun _ => 1,
    find_or_create_party := fun _ => 1,
    create_guest_party := fun _ _ _ => 2,
    find_or_create_address := fun _ _ => 3,
    get_product := fun _ => .ok { id := 7, name := "Widget" },
    get_taxes := fun _ => [4],
    find_gateway := fun _ => none,
    party_receivable := fun _ => 9,
    find_magento_carrier := fun _ => none,
    process_to_channel_state := fun _ _ => .ok "processing",
    order_info := fun _ => testOrder,
    order_cancel := fun _ => .ok (),
    order_addcomment := fun _ _ => .ok (),
    validate_magento_channel := .ok () }

/-- testEnv, except that the workflow mapping says do_not_import. -/
def skipEnv : Env :=
  { testEnv with get_tryton_action := fun _ =>
      { action := "do_not_import", invoice_method := "order",
        shipment_method := "order" } }

/-- testEnv, except that product resolution fails with fault code 101. -/
def env101 : Env :=
  { testEnv with get_product := fun _ =>
      Except.error (PyError.fault 101 "Requested products do not exist.") }

/-- testEnv, except that product resolution fails with fault code 999. -/
def env999 : Env :=
  { testEnv with get_product := fun _ => .error (PyError.fault 999 "boom") }

/-- testEnv, except that the state transition is rejected with a UserError. -/
def rejectEnv : Env :=
  { testEnv with process_to_channel_state := fun _ _ =>
      Except.error "Sale order has channel exception" }

/-- testItem with an empty name. -/
def noNameItem : ItemData := { testItem with name := "" }

/-- testItem as a bundle child: bundle_option present, truthy parent. -/
def bundleItem : ItemData :=
  { testItem with product_options := ["bundle_option"], parent_item_id := some 5 }

/-- testSale in the local cancel state. -/
def cancelSale : Sale := { testSale with state := "cancel" }

/-- testEnv, except that the remote order-cancel call raises fault 999. -/
def faultEnv999 : Env :=
  { testEnv with order_cancel := fun _ => .error (PyError.fault 999 "boom") }

/-- testEnv, except that the remote order-cancel call raises fault 103. -/
def faultEnv103 : Env :=
  { testEnv with order_cancel := fun _ => .error (PyError.fault 103 "conflict") }

/-! ### Projection helpers for the sale draft -/

/-- The sale draft carries the payload's numeric id. -/
theorem get_sale_magento_id (env : Env) (od : OrderData) :
    (get_sale_using_magento_data env od).magento_id = some od.order_id := rfl

/-- The sale draft belongs to the current channel. -/
theorem get_sale_channel (env : Env) (od : OrderData) :
    (get_sale_using_magento_data env od).channel = env.current_channel := rfl

/-- The sale draft starts in the local draft state. -/
theorem get_sale_state (env : Env) (od : OrderData) :
    (get_sale_using_magento_data env od).state = "draft" := rfl

/-- The sale draft starts with an empty line set. -/
theorem get_sale_lines (env : Env) (od : OrderData) :
    (get_sale_using_magento_data env od).lines = [] := rfl

/-! ### C7 -/

/-- C7: for every order payload with no shipping address, the sale produced
by get_sale_using_magento_data has shipment_method 'manual' (regardless of
the channel's workflow-mapped shipment method) and its shipment address
equals its invoice address. -/
theorem get_sale_no_shipping_address_fallback (env : Env) (od : OrderData)
    (h : od.shipping_address = none) :
    (get_sale_using_magento_data env od).shipment_method = "manual" ∧
    (get_sale_using_magento_data env od).shipment_address =
      (get_sale_using_magento_data env od).invoice_address := by
  simp [get_sale_using_magento_data, h]

/-- Witness for C7 at the concrete payload testOrder. -/
theorem get_sale_no_shipping_address_fallback_witness :
    (get_sale_using_magento_data testEnv testOrder).shipment_method = "manual" ∧
    (get_sale_using_magento_data testEnv testOrder).shipment_address =
      (get_sale_using_magento_data testEnv testOrder).invoice_address :=
  get_sale_no_shipping_address_fallback testEnv testOrder rfl

/-! ### C9 -/

/-- C9: when the remote order status is complete, every shipment of the sale
is advanced through the draft → waiting → assigned → packed → done sequence:
any shipment in a non-done state ends in done, and the trace of states it
enters is exactly the consecutive canonical suffix after its current state
(no state skipped); the update maps this advance over all shipments. -/
theorem update_order_status_complete_advances (s : ShipmentState)
    (h : s ≠ ShipmentState.done) :
    (advanceShipmentTrace s).1 = ShipmentState.done ∧
    (advanceShipmentTrace s).2 = shipmentSeq.drop (stateIdx s + 1) ∧
    ∀ shipments : List ShipmentState,
      update_order_status_from_magento "complete" shipments =
        shipments.map (fun t => (advanceShipmentTrace t).1) := by
  refine ⟨?_, ?_, fun shipments => ?_⟩
  · cases s <;> rfl
  · cases s <;> rfl
  · simp [update_order_status_from_magento]

/-- Witness for C9 at a draft shipment. -/
theorem update_order_status_complete_advances_witness :
    (advanceShipmentTrace ShipmentState.draft).1 = ShipmentState.done ∧
    (advanceShipmentTrace ShipmentState.draft).2 =
      shipmentSeq.drop (stateIdx ShipmentState.draft + 1) ∧
    ∀ shipments : List ShipmentState,
      update_order_status_from_magento "complete" shipments =
        shipments.map (fun t => (advanceShipmentTrace t).1) :=
  update_order_status_complete_advances ShipmentState.draft (by decide)

/-! ### C2 -/

/-- C2: find_or_create_using_magento_data is idempotent: when the payload's
numeric id already matches a sale of the current channel, the call returns
that sale and leaves the store untouched (no second sale, no line change,
no other mutation), and a repeated call on the resulting store returns the
same sale with the same untouched store. -/
theorem find_or_create_using_magento_data_idempotent (env : Env)
    (od : OrderData) (db : DB) (s : Sale)
    (h : find_using_magento_data env od db = some s) :
    find_or_create_using_magento_data env od db = .ok (some s, db) ∧
    ∀ db1 : DB,
      find_or_create_using_magento_data env od db = .ok (some s, db1) →
      find_or_create_using_magento_data env od db1 = .ok (some s, db1) := by
  have h1 : find_or_create_using_magento_data env od db = .ok (some s, db) := by
    simp [find_or_create_using_magento_data, h]
  refine ⟨h1, fun db1 h2 => ?_⟩
  rw [h1] at h2
  injection h2 with h3
  injection h3 with h4 h5
  subst h5
  exact h1

/-- Witness for C2: a store already holding testSale for testOrder. -/
theorem find_or_create_using_magento_data_idempotent_witness :
    find_or_create_using_magento_data testEnv testOrder
        { emptyDB with sales := [testSale] } =
      .ok (some testSale, { emptyDB with sales := [testSale] }) ∧
    ∀ db1 : DB,
      find_or_create_using_magento_data testEnv testOrder
          { emptyDB with sales := [testSale] } = .ok (some testSale, db1) →
      find_or_create_using_magento_data testEnv testOrder db1 =
        .ok (some testSale, db1) :=
  find_or_create_using_magento_data_idempotent testEnv testOrder
    { emptyDB with sales := [testSale] } testSale (by decide)

/-! ### C6 -/

/-- C6: when the channel's workflow mapping resolves the payload's remote
state to do_not_import, create_using_magento_data returns nothing and the
store is untouched: afterwards no sale, no sale lines, no payment and no
ChannelException exist for the payload. -/
theorem create_do_not_import_skips (env : Env) (od : OrderData) (db : DB)
    (h : (env.get_tryton_action od.state).action = "do_not_import") :
    create_using_magento_data env od db = .ok (none, db) ∧
    ∀ r db1, create_using_magento_data env od db = .ok (r, db1) →
      db1.sales = db.sales ∧ db1.exceptions = db.exceptions ∧
      db1.payments = db.payments := by
  have h1 : create_using_magento_data env od db = .ok (none, db) := by
    simp [create_using_magento_data, h]
  refine ⟨h1, fun r db1 h2 => ?_⟩
  rw [h1] at h2
  injection h2 with h3
  injection h3 with h4 h5
  subst h5
  exact ⟨rfl, rfl, rfl⟩

/-- Witness for C6 with the do_not_import channel mapping. -/
theorem create_do_not_import_skips_witness :
    create_using_magento_data skipEnv testOrder emptyDB = .ok (none, emptyDB) ∧
    ∀ r db1, create_using_magento_data skipEnv testOrder emptyDB = .ok (r, db1) →
      db1.sales = emptyDB.sales ∧ db1.exceptions = emptyDB.exceptions ∧
      db1.payments = emptyDB.payments :=
  create_do_not_import_skips skipEnv testOrder emptyDB rfl

/-! ### C8 -/

/-- The item loop skips exactly the bundle children: folding over a list of
items equals folding over the list with every bundle child removed. -/
theorem foldItems_filter_bundle_children (env : Env) (sale : Sale) :
    ∀ (items : List ItemData) (acc : List SaleLine) (db : DB),
      foldItems env sale (items.filter (fun i => !isBundleChild i)) acc db =
        foldItems env sale items acc db := by
  intro items
  induction items with
  | nil => intro acc db; rfl
  | cons item rest ih =>
    intro acc db
    by_cases hb : isBundleChild item = true
    · have hstep : processItem env sale item acc db = .ok (acc, db) := by
        simp [processItem, hb]
      simp [List.filter_cons, hb, foldItems, hstep, ih]
    · simp only [Bool.not_eq_true] at hb
      simp only [List.filter_cons, hb, Bool.not_false, if_pos]
      simp only [foldItems]
      cases hstep : processItem env sale item acc db with
      | error e => rfl
      | ok res =>
        obtain ⟨acc1, db1⟩ := res
        exact ih acc1 db1

/-- C8: an item carrying the bundle_option key among its product options and
a non-empty (truthy) parent item id produces no sale line, regardless of its
other fields: the loop iteration for such an item is the identity, and
add_lines_using_magento_data builds the same result as on the payload with
every bundle child removed. -/
theorem bundle_child_item_produces_no_line :
    (∀ (env : Env) (sale : Sale) (item : ItemData) (acc : List SaleLine)
        (db : DB),
      item.product_options.contains "bundle_option" = true →
      pyTruthyOptInt item.parent_item_id = true →
      processItem env sale item acc db = .ok (acc, db)) ∧
    (∀ (env : Env) (od : OrderData) (sale : Sale) (db : DB),
      add_lines_using_magento_data env
          { od with items := od.items.filter (fun i => !isBundleChild i) }
          sale db =
        add_lines_using_magento_data env od sale db) := by
  constructor
  · intro env sale item acc db h1 h2
    have hb : isBundleChild item = true := by
      unfold isBundleChild
      rw [h1, h2]
      rfl
    simp [processItem, hb]
  · intro env od sale db
    simp only [add_lines_using_magento_data]
    have e2 : ∀ ls, addExtraLines env
        { od with items := od.items.filter (fun i => !isBundleChild i) } sale ls =
        addExtraLines env od sale ls := fun _ => rfl
    simp only [e2]
    rw [foldItems_filter_bundle_children]

/-- Witness for C8 at a concrete bundle child. -/
theorem bundle_child_item_produces_no_line_witness :
    processItem testEnv testSale bundleItem [] emptyDB = .ok ([], emptyDB) ∧
    add_lines_using_magento_data testEnv
        { testOrder with
          items := testOrder.items.filter (fun i => !isBundleChild i) }
        testSale emptyDB =
      add_lines_using_magento_data testEnv testOrder testSale emptyDB :=
  ⟨bundle_child_item_produces_no_line.1 testEnv testSale bundleItem [] emptyDB
      (by decide) (by decide),
   bundle_child_item_produces_no_line.2 testEnv testOrder testSale emptyDB⟩

/-! ### Shared lemmas about the lookup / insert boundary -/

/-- A sale that the (magento_id, channel) lookup does not see cannot clash
with the draft built from the same payload. -/
theorem keyClash_get_sale_false (env : Env) (od : OrderData) (t : Sale)
    (h : (t.magento_id == some od.order_id &&
          t.channel == env.current_channel) = false) :
    keyClash t (get_sale_using_magento_data env od) = false := by
  unfold keyClash
  rw [get_sale_channel, get_sale_magento_id]
  cases ha : (t.magento_id == some od.order_id) <;>
    cases hb : (t.channel == env.current_channel) <;>
      simp_all

/-- When find_using_magento_data finds nothing, no persisted sale clashes
with the draft built from the payload. -/
theorem find_none_imp_no_clash (env : Env) (od : OrderData) (db : DB)
    (hfind : find_using_magento_data env od db = none) :
    db.sales.any (fun t => keyClash t (get_sale_using_magento_data env od)) =
      false := by
  rw [List.any_eq_false]
  intro t ht
  unfold find_using_magento_data at hfind
  rw [List.head?_eq_none_iff] at hfind
  have hp := List.filter_eq_nil_iff.mp hfind t ht
  simp only [Bool.not_eq_true] at hp
  simp [keyClash_get_sale_false env od t hp]

/-- When find_using_magento_data finds nothing, inserting the draft
succeeds, assigning it the store's next id. -/
theorem saveNew_of_find_none (env : Env) (od : OrderData) (db : DB)
    (hfind : find_using_magento_data env od db = none) :
    saveNew (get_sale_using_magento_data env od) db =
      .ok ({ (get_sale_using_magento_data env od) with id := db.nextId },
           { db with
             sales :=
               db.sales ++ [{ (get_sale_using_magento_data env od) with
                 id := db.nextId }],
             nextId := db.nextId + 1 }) := by
  unfold saveNew
  rw [find_none_imp_no_clash env od db hfind]
  rfl

/-! ### C5 -/

/-- C5 counterexample: at a top-level item whose name is empty, a fault-101
product resolution does not leave the import running with a quarantined
line — the null-product dereference in the line description raises and the
line build aborts, so no line is built. -/
theorem get_sale_line_fault101_empty_name_aborts :
    get_sale_line_using_magento_data env101 testSale noNameItem emptyDB =
      .error PyError.attrError := by
  decide

/-- C5 (amended): for a top-level item, when product resolution raises
fault 101 and the item's name is non-empty, the import does not abort: one
ChannelException describing the missing product is created and the line is
still built with a null product reference (with an empty name the
null-product dereference aborts instead); when product resolution raises a
fault with any other code, the fault propagates from the line build and the
whole import aborts. -/
theorem get_sale_line_fault_quarantine (env : Env) (sale : Sale)
    (item : ItemData) (db : DB) (m : String)
    (hparent : pyTruthyOptInt item.parent_item_id = false) :
    (env.get_product item.sku = .error (PyError.fault 101 m) →
      item.name ≠ "" →
      get_sale_line_using_magento_data env sale item db =
        .ok (some { sale := sale.id, magento_id := some item.item_id,
                    description := item.name, unit_price := item.price,
                    unit := env.default_uom, quantity := item.qty_ordered,
                    note := item.comments, product := none,
                    taxes :=
                      match item.tax_percent with
                      | some t => if t ≠ 0 then env.get_taxes (t / 100) else []
                      | none => [] },
          { db with exceptions := db.exceptions ++
            [{ origin := ("sale.sale", sale.id),
               log := "Product #" ++ toString item.product_id ++ " does not exist",
               channel := sale.channel }] })) ∧
    (∀ c : Int, c ≠ 101 →
      env.get_product item.sku = .error (PyError.fault c m) →
      get_sale_line_using_magento_data env sale item db =
        .error (PyError.fault c m)) ∧
    (∀ (c : Int) (od : OrderData) (rest : List ItemData), c ≠ 101 →
      env.get_product item.sku = .error (PyError.fault c m) →
      od.items = item :: rest →
      isBundleChild item = false →
      find_using_magento_data env od db = none →
      (env.get_tryton_action od.state).action ≠ "do_not_import" →
      create_using_magento_data env od db = .error (PyError.fault c m)) := by
  refine ⟨?_, ?_, ?_⟩
  · intro h101 hname
    simp [get_sale_line_using_magento_data, hparent, h101, mkItemLine,
      lineDescription, hname]
  · intro c hc h
    simp [get_sale_line_using_magento_data, hparent, h, hc]
  · intro c od rest hc h hitems hnb hfind haction
    have hgsl : ∀ (sale1 : Sale) (db1 : DB),
        get_sale_line_using_magento_data env sale1 item db1 =
          .error (PyError.fault c m) := by
      intro sale1 db1
      simp [get_sale_line_using_magento_data, hparent, h, hc]
    unfold create_using_magento_data
    rw [if_neg haction, saveNew_of_find_none env od db hfind]
    simp only [add_lines_using_magento_data, hitems, foldItems, processItem,
      hnb, Bool.false_eq_true, if_false, hgsl]

/-- Witness for the amended C5 at concrete inputs: fault 101 with a
non-empty item name quarantines and still builds the line; fault 999
propagates. -/
theorem get_sale_line_fault_quarantine_witness :
    get_sale_line_using_magento_data env101 testSale testItem emptyDB =
      .ok (some { sale := testSale.id, magento_id := some testItem.item_id,
                  description := testItem.name, unit_price := testItem.price,
                  unit := env101.default_uom, quantity := testItem.qty_ordered,
                  note := testItem.comments, product := none,
                  taxes :=
                    match testItem.tax_percent with
                    | some t => if t ≠ 0 then env101.get_taxes (t / 100) else []
                    | none => [] },
        { emptyDB with exceptions := emptyDB.exceptions ++
          [{ origin := ("sale.sale", testSale.id),
             log := "Product #" ++ toString testItem.product_id ++
               " does not exist",
             channel := testSale.channel }] }) ∧
    get_sale_line_using_magento_data env999 testSale testItem emptyDB =
      .error (PyError.fault 999 "boom") :=
  ⟨(get_sale_line_fault_quarantine env101 testSale testItem emptyDB
      "Requested products do not exist." rfl).1 rfl (by decide),
   (get_sale_line_fault_quarantine env999 testSale testItem emptyDB
      "boom" rfl).2.1 999 (by decide) rfl⟩

/-! ### C10 -/

/-- C10: the quarantined null-product path of
get_sale_line_using_magento_data is only total when the item's name is
non-empty: with a 101 product fault and an empty name, evaluating the line
description dereferences the null product and raises, so the line is never
built; with a non-empty name the line is built with a null product. -/
theorem null_product_line_requires_nonempty_name (env : Env) (sale : Sale)
    (item : ItemData) (db : DB) (m : String)
    (hparent : pyTruthyOptInt item.parent_item_id = false)
    (h101 : env.get_product item.sku = .error (PyError.fault 101 m)) :
    (item.name = "" →
      get_sale_line_using_magento_data env sale item db =
        .error PyError.attrError) ∧
    (item.name ≠ "" →
      ∃ l db1,
        get_sale_line_using_magento_data env sale item db = .ok (some l, db1) ∧
        l.product = none ∧ l.description = item.name) := by
  constructor
  · intro hname
    simp [get_sale_line_using_magento_data, hparent, h101, mkItemLine,
      lineDescription, hname]
  · intro hname
    refine ⟨{ sale := sale.id, magento_id := some item.item_id,
              description := item.name, unit_price := item.price,
              unit := env.default_uom, quantity := item.qty_ordered,
              note := item.comments, product := none,
              taxes :=
                match item.tax_percent with
                | some t => if t ≠ 0 then env.get_taxes (t / 100) else []
                | none => [] },
            { db with exceptions := db.exceptions ++
              [{ origin := ("sale.sale", sale.id),
                 log := "Product #" ++ toString item.product_id ++
                   " does not exist",
                 channel := sale.channel }] }, ?_, rfl, rfl⟩
    simp [get_sale_line_using_magento_data, hparent, h101, mkItemLine,
      lineDescription, hname]

/-- Witness for C10: the empty-name item aborts, the named item builds a
null-product line. -/
theorem null_product_line_requires_nonempty_name_witness :
    get_sale_line_using_magento_data env101 testSale noNameItem emptyDB =
      .error PyError.attrError ∧
    ∃ l db1,
      get_sale_line_using_magento_data env101 testSale testItem emptyDB =
        .ok (some l, db1) ∧ l.product = none ∧ l.description = testItem.name :=
  ⟨(null_product_line_requires_nonempty_name env101 testSale noNameItem emptyDB
      "Requested products do not exist." rfl rfl).1 rfl,
   (null_product_line_requires_nonempty_name env101 testSale testItem emptyDB
      "Requested products do not exist." rfl rfl).2 (by decide)⟩

/-! ### C4 -/

/-- C4 at the failing input: export_order_status_to_magento swallows every
xmlrpclib.Fault, not only fault 103 — the except block never re-raises, so
after the dead `faultCode == 103` test control falls through to the same
`return self`.  A cancelled sale whose remote cancel call raises fault 103
returns normally (as the claim says), and one whose call raises fault 999
ALSO returns normally (where the claim says the fault propagates). -/
theorem export_order_status_swallows_every_fault :
    export_order_status_to_magento faultEnv103 cancelSale = .ok cancelSale ∧
    export_order_status_to_magento faultEnv999 cancelSale = .ok cancelSale := by
  constructor <;> decide

/-! ### Success lemmas for the line-building pipeline -/

/-- With a resolved product the line construction always succeeds and
leaves the store untouched. -/
theorem mkItemLine_some_ok (env : Env) (sale : Sale) (item : ItemData)
    (p : ProductRec) (db : DB) :
    ∃ l, mkItemLine env sale item (some p) db = .ok (some l, db) := by
  unfold mkItemLine lineDescription
  by_cases h : item.name ≠ ""
  · rw [if_pos h]
    exact ⟨_, rfl⟩
  · rw [if_neg h]
    exact ⟨_, rfl⟩

/-- When the product resolver succeeds on the item's sku, building the line
succeeds and leaves the store untouched. -/
theorem get_sale_line_ok_of_product_ok (env : Env) (sale : Sale)
    (item : ItemData) (db : DB) (p : ProductRec)
    (hp : env.get_product item.sku = .ok p) :
    ∃ r, get_sale_line_using_magento_data env sale item db = .ok (r, db) := by
  unfold get_sale_line_using_magento_data
  by_cases hpar : pyTruthyOptInt item.parent_item_id = true
  · simp [hpar]
  · simp only [hpar, Bool.false_eq_true, if_false, hp]
    obtain ⟨l, hl⟩ := mkItemLine_some_ok env sale item p db
    exact ⟨some l, hl⟩

/-- When every product resolution succeeds, one loop iteration succeeds and
leaves the store untouched. -/
theorem processItem_ok_of_products_ok (env : Env) (sale : Sale)
    (item : ItemData) (acc : List SaleLine) (db : DB)
    (hprod : ∀ sku, ∃ p, env.get_product sku = .ok p) :
    ∃ acc1, processItem env sale item acc db = .ok (acc1, db) := by
  unfold processItem
  by_cases hb : isBundleChild item = true
  · simp [hb]
  · simp only [hb, Bool.false_eq_true, if_false]
    obtain ⟨p, hp⟩ := hprod item.sku
    obtain ⟨r, hr⟩ := get_sale_line_ok_of_product_ok env sale item db p hp
    rw [hr]
    cases r with
    | some l => exact ⟨acc ++ [l], rfl⟩
    | none => exact ⟨acc, rfl⟩

/-- When every product resolution succeeds, the whole item loop succeeds
and leaves the store untouched. -/
theorem foldItems_ok_of_products_ok (env : Env) (sale : Sale)
    (hprod : ∀ sku, ∃ p, env.get_product sku = .ok p) :
    ∀ (items : List ItemData) (acc : List SaleLine) (db : DB),
      ∃ acc1, foldItems env sale items acc db = .ok (acc1, db) := by
  intro items
  induction items with
  | nil => intro acc db; exact ⟨acc, rfl⟩
  | cons item rest ih =>
    intro acc db
    obtain ⟨acc1, h1⟩ := processItem_ok_of_products_ok env sale item acc db hprod
    obtain ⟨acc2, h2⟩ := ih acc1 db
    exact ⟨acc2, by simp [foldItems, h1, h2]⟩

/-- Appending the synthetic shipping and discount lines never changes the
sale's identity, channel, remote ids or workflow state. -/
theorem addExtraLines_fields (env : Env) (od : OrderData) (sale : Sale)
    (ls : List SaleLine) :
    (addExtraLines env od sale ls).id = sale.id ∧
    (addExtraLines env od sale ls).channel = sale.channel ∧
    (addExtraLines env od sale ls).magento_id = sale.magento_id ∧
    (addExtraLines env od sale ls).state = sale.state ∧
    (addExtraLines env od sale ls).channel_identifier =
      sale.channel_identifier := by
  unfold addExtraLines
  by_cases hs : pyTruthyOptStr od.shipping_method = true
  · simp only [hs, if_true]
    unfold get_shipping_line_data_using_magento_data
    cases hmc : env.find_magento_carrier (get_carrier_data_from_order_data od) with
    | none => simp
    | some c =>
      cases hcr : c.carrier with
      | none => simp [hcr]
      | some cr => simp [hcr]
  · simp [hs]

/-- When every product resolution succeeds,
add_lines_using_magento_data succeeds, leaves the store untouched and
preserves the sale's identity, channel, remote ids and workflow state. -/
theorem add_lines_ok_of_products_ok (env : Env) (od : OrderData) (sale : Sale)
    (db : DB) (hprod : ∀ sku, ∃ p, env.get_product sku = .ok p) :
    ∃ sale1, add_lines_using_magento_data env od sale db = .ok (sale1, db) ∧
      sale1.id = sale.id ∧ sale1.channel = sale.channel ∧
      sale1.magento_id = sale.magento_id ∧ sale1.state = sale.state ∧
      sale1.channel_identifier = sale.channel_identifier := by
  obtain ⟨ls, hls⟩ :=
    foldItems_ok_of_products_ok env sale hprod od.items sale.lines db
  obtain ⟨h1, h2, h3, h4, h5⟩ := addExtraLines_fields env od sale ls
  exact ⟨addExtraLines env od sale ls,
    by simp [add_lines_using_magento_data, hls], h1, h2, h3, h4, h5⟩

/-- create_payment_using_magento_data only ever appends a payment record. -/
theorem create_payment_frame (env : Env) (sale : Sale) (pd : PaymentData)
    (db : DB) :
    (create_payment_using_magento_data env sale pd db).sales = db.sales ∧
    (create_payment_using_magento_data env sale pd db).exceptions =
      db.exceptions ∧
    (create_payment_using_magento_data env sale pd db).nextId = db.nextId := by
  unfold create_payment_using_magento_data
  cases env.find_gateway pd.method with
  | none => exact ⟨rfl, rfl, rfl⟩
  | some gw =>
    cases pd.amount_paid with
    | none => exact ⟨rfl, rfl, rfl⟩
    | some amt =>
      dsimp only
      by_cases h : amt ≠ 0
      · rw [if_pos h]
        exact ⟨rfl, rfl, rfl⟩
      · rw [if_neg h]
        exact ⟨rfl, rfl, rfl⟩

/-! ### C3 -/

/-- C3: during create_using_magento_data, when the state-transition step
raises a UserError, exactly one ChannelException is created, its origin
referencing the sale and its log naming the target workflow action and the
rejection message; the sale remains persisted in its pre-transition draft
state, and the import returns the sale. -/
theorem create_quarantines_transition_rejection (env : Env) (od : OrderData)
    (db : DB) (msg : String)
    (hfind : find_using_magento_data env od db = none)
    (haction : (env.get_tryton_action od.state).action ≠ "do_not_import")
    (hprod : ∀ sku, ∃ p, env.get_product sku = .ok p)
    (hproc : ∀ s : Sale, env.process_to_channel_state od.state s = .error msg) :
    ∃ s db1, create_using_magento_data env od db = .ok (some s, db1) ∧
      db1.exceptions = db.exceptions ++
        [{ origin := ("sale.sale", s.id),
           log := "Error occurred on transitioning to state " ++
             (env.get_tryton_action od.state).action ++
             ".\nError Message: " ++ msg,
           channel := s.channel }] ∧
      s ∈ db1.sales ∧ s.state = "draft" := by
  have hcreate := saveNew_of_find_none env od db hfind
  set saleIns : Sale :=
    { (get_sale_using_magento_data env od) with id := db.nextId } with hsaleIns
  set dbIns : DB :=
    { db with
      sales := db.sales ++ [saleIns],
      nextId := db.nextId + 1 } with hdbIns
  obtain ⟨sale2, hadd, hid, hch, hmag, hst, hci⟩ :=
    add_lines_ok_of_products_ok env od saleIns dbIns hprod
  set db4 : DB := create_payment_using_magento_data env sale2 od.payment
    (saveUpdate sale2 dbIns) with hdb4
  have main : create_using_magento_data env od db =
      .ok (some sale2, { db4 with exceptions := db4.exceptions ++
        [{ origin := ("sale.sale", sale2.id),
           log := "Error occurred on transitioning to state " ++
             (env.get_tryton_action od.state).action ++
             ".\nError Message: " ++ msg,
           channel := sale2.channel }] }) := by
    unfold create_using_magento_data
    rw [if_neg haction, hcreate]
    dsimp only
    rw [hadd]
    dsimp only
    rw [hproc sale2]
  obtain ⟨hsales4, hexc4, -⟩ :=
    create_payment_frame env sale2 od.payment (saveUpdate sale2 dbIns)
  rw [← hdb4] at hsales4 hexc4
  refine ⟨sale2, _, main, ?_, ?_, ?_⟩
  · show db4.exceptions ++ _ = _
    rw [hexc4]
    have : (saveUpdate sale2 dbIns).exceptions = db.exceptions := by
      rw [hdbIns]
      rfl
    rw [this]
  · show sale2 ∈ db4.sales
    rw [hsales4]
    unfold saveUpdate
    rw [hdbIns]
    have hmem : saleIns ∈ db.sales ++ [saleIns] :=
      List.mem_append_right _ (List.mem_singleton_self _)
    have hrepl :
        (if saleIns.id == sale2.id then sale2 else saleIns) = sale2 := by
      rw [hid]
      simp
    have h2 := List.mem_map_of_mem
      (fun t => if t.id == sale2.id then sale2 else t) hmem
    dsimp only at h2
    rw [hrepl] at h2
    exact h2
  · rw [hst, hsaleIns]
    rfl

/-- Witness for C3 with the rejecting environment. -/
theorem create_quarantines_transition_rejection_witness :
    ∃ s db1, create_using_magento_data rejectEnv testOrder emptyDB =
        .ok (some s, db1) ∧
      db1.exceptions = emptyDB.exceptions ++
        [{ origin := ("sale.sale", s.id),
           log := "Error occurred on transitioning to state " ++
             (rejectEnv.get_tryton_action testOrder.state).action ++
             ".\nError Message: " ++ "Sale order has channel exception",
           channel := s.channel }] ∧
      s ∈ db1.sales ∧ s.state = "draft" :=
  create_quarantines_transition_rejection rejectEnv testOrder emptyDB
    "Sale order has channel exception" (by decide) (by decide)
    (fun _ => ⟨{ id := 7, name := "Widget" }, rfl⟩) (fun _ => rfl)

/-! ### Frame lemmas: which parts of the store each phase can touch -/

/-- The line construction leaves the store untouched when it succeeds. -/
theorem mkItemLine_frame (env : Env) (sale : Sale) (item : ItemData)
    (product : Option ProductRec) (db : DB) (r : Option SaleLine) (db1 : DB)
    (h : mkItemLine env sale item product db = .ok (r, db1)) : db1 = db := by
  unfold mkItemLine at h
  cases hld : lineDescription item product with
  | error e => rw [hld] at h; simp at h
  | ok desc =>
    rw [hld] at h
    dsimp only at h
    injection h with h1
    injection h1 with h2 h3
    exact h3.symm

/-- Building a line can only append quarantine records: the persisted
sales, payments and the id counter are untouched. -/
theorem get_sale_line_frame (env : Env) (sale : Sale) (item : ItemData)
    (db : DB) (r : Option SaleLine) (db1 : DB)
    (h : get_sale_line_using_magento_data env sale item db = .ok (r, db1)) :
    db1.sales = db.sales ∧ db1.payments = db.payments ∧
    db1.nextId = db.nextId := by
  unfold get_sale_line_using_magento_data at h
  by_cases hpar : pyTruthyOptInt item.parent_item_id = true
  · rw [if_pos hpar] at h
    injection h with h1
    injection h1 with h2 h3
    rw [← h3]
    exact ⟨rfl, rfl, rfl⟩
  · rw [if_neg hpar] at h
    cases hg : env.get_product item.sku with
    | ok p =>
      rw [hg] at h
      dsimp only at h
      rw [mkItemLine_frame env sale item (some p) db r db1 h]
      exact ⟨rfl, rfl, rfl⟩
    | error e =>
      rw [hg] at h
      cases e with
      | fault c m =>
        dsimp only at h
        by_cases hc : c = 101
        · rw [if_pos hc] at h
          rw [mkItemLine_frame env sale item none _ r db1 h]
          exact ⟨rfl, rfl, rfl⟩
        · rw [if_neg hc] at h
          simp at h
      | userError m => dsimp only at h; simp at h
      | attrError => dsimp only at h; simp at h
      | constraintError => dsimp only at h; simp at h

/-- One loop iteration can only append quarantine records. -/
theorem processItem_frame (env : Env) (sale : Sale) (item : ItemData)
    (acc : List SaleLine) (db : DB) (acc1 : List SaleLine) (db1 : DB)
    (h : processItem env sale item acc db = .ok (acc1, db1)) :
    db1.sales = db.sales ∧ db1.payments = db.payments ∧
    db1.nextId = db.nextId := by
  unfold processItem at h
  by_cases hb : isBundleChild item = true
  · rw [if_pos hb] at h
    injection h with h1
    injection h1 with h2 h3
    rw [← h3]
    exact ⟨rfl, rfl, rfl⟩
  · rw [if_neg hb] at h
    cases hg : get_sale_line_using_magento_data env sale item db with
    | error e => rw [hg] at h; simp at h
    | ok p =>
      obtain ⟨ropt, db2⟩ := p
      rw [hg] at h
      have hf := get_sale_line_frame env sale item db ropt db2 hg
      cases ropt with
      | some l =>
        dsimp only at h
        injection h with h1
        injection h1 with h2 h3
        rw [← h3]
        exact hf
      | none =>
        dsimp only at h
        injection h with h1
        injection h1 with h2 h3
        rw [← h3]
        exact hf

/-- The item loop can only append quarantine records. -/
theorem foldItems_frame (env : Env) (sale : Sale) :
    ∀ (items : List ItemData) (acc : List SaleLine) (db : DB)
      (acc1 : List SaleLine) (db1 : DB),
      foldItems env sale items acc db = .ok (acc1, db1) →
      db1.sales = db.sales ∧ db1.payments = db.payments ∧
      db1.nextId = db.nextId := by
  intro items
  induction items with
  | nil =>
    intro acc db acc1 db1 h
    injection h with h1
    injection h1 with h2 h3
    rw [← h3]
    exact ⟨rfl, rfl, rfl⟩
  | cons item rest ih =>
    intro acc db acc1 db1 h
    simp only [foldItems] at h
    cases hp : processItem env sale item acc db with
    | error e => rw [hp] at h; simp at h
    | ok p =>
      obtain ⟨acc2, db2⟩ := p
      rw [hp] at h
      dsimp only at h
      obtain ⟨h1, h2, h3⟩ := processItem_frame env sale item acc db acc2 db2 hp
      obtain ⟨h4, h5, h6⟩ := ih acc2 db2 acc1 db1 h
      exact ⟨h4.trans h1, h5.trans h2, h6.trans h3⟩

/-- add_lines_using_magento_data can only append quarantine records, and it
preserves the sale's identity, channel and remote numeric id. -/
theorem add_lines_frame (env : Env) (od : OrderData) (sale : Sale) (db : DB)
    (sale1 : Sale) (db1 : DB)
    (h : add_lines_using_magento_data env od sale db = .ok (sale1, db1)) :
    db1.sales = db.sales ∧ db1.nextId = db.nextId ∧
    sale1.id = sale.id ∧ sale1.channel = sale.channel ∧
    sale1.magento_id = sale.magento_id := by
  unfold add_lines_using_magento_data at h
  cases hf : foldItems env sale od.items sale.lines db with
  | error e => rw [hf] at h; simp at h
  | ok p =>
    obtain ⟨ls, db2⟩ := p
    rw [hf] at h
    dsimp only at h
    injection h with h1
    injection h1 with h2 h3
    obtain ⟨ha, -, hc⟩ := foldItems_frame env sale od.items sale.lines db ls db2 hf
    obtain ⟨f1, f2, f3, -, -⟩ := addExtraLines_fields env od sale ls
    refine ⟨?_, ?_, ?_, ?_, ?_⟩
    · rw [← h3]; exact ha
    · rw [← h3]; exact hc
    · rw [← h2]; exact f1
    · rw [← h2]; exact f2
    · rw [← h2]; exact f3

/-! ### Uniqueness-preservation lemmas -/

/-- keyClash only reads the channel and the remote numeric id. -/
theorem keyClash_congr (a b1 b : Sale) (hc : b1.channel = b.channel)
    (hm : b1.magento_id = b.magento_id) : keyClash a b1 = keyClash a b := by
  unfold keyClash
  rw [hc, hm]

/-- Updating the freshly inserted sale record in place: when every earlier
record's id is below the new record's id, the update rewrites exactly the
new record. -/
theorem saveUpdate_shape (db0 : DB) (l : List Sale) (sNew s : Sale)
    (hsales : db0.sales = l ++ [sNew])
    (hb : ∀ t ∈ l, t.id < sNew.id)
    (hid : s.id = sNew.id) :
    (saveUpdate s db0).sales = l ++ [s] := by
  unfold saveUpdate
  dsimp only
  rw [hsales, List.map_append]
  congr 1
  · have hcong : ∀ t ∈ l, (if t.id == s.id then s else t) = t := by
      intro t ht
      have hne : t.id ≠ s.id := by
        rw [hid]
        exact Nat.ne_of_lt (hb t ht)
      simp [hne]
    exact (List.map_congr_left hcong).trans (List.map_id l)
  · simp [hid]

/-- Inserting one sale with a fresh id and a clash-free key preserves
well-formedness. -/
theorem WF_insert (db : DB) (dbNew : DB) (s : Sale) (hwf : WF db)
    (hsales : dbNew.sales = db.sales ++ [s])
    (hnext : dbNew.nextId = db.nextId + 1)
    (hid : s.id = db.nextId)
    (hclash : ∀ t ∈ db.sales, keyClash t s = false) :
    WF dbNew := by
  obtain ⟨hb, hk⟩ := hwf
  constructor
  · intro t ht
    rw [hsales] at ht
    rw [hnext]
    rcases List.mem_append.mp ht with h | h
    · exact Nat.lt_succ_of_lt (hb t h)
    · rw [List.mem_singleton] at h
      subst h
      rw [hid]
      exact Nat.lt_succ_self _
  · unfold salesKeyUnique at hk ⊢
    rw [hsales, List.pairwise_append]
    refine ⟨hk, List.pairwise_singleton _ _, ?_⟩
    intro a ha b hb2
    rw [List.mem_singleton] at hb2
    subst hb2
    exact hclash a ha

/-- The create path preserves well-formedness (hence the dedup invariant):
the only insert is guarded by the uniqueness constraint, and every later
save is an in-place update that keeps the (magento_id, channel) key. -/
theorem create_preserves_WF (env : Env) (od : OrderData) (db : DB)
    (hwf : WF db) (r : Option Sale) (db1 : DB)
    (h : create_using_magento_data env od db = .ok (r, db1)) : WF db1 := by
  unfold create_using_magento_data at h
  by_cases haction : (env.get_tryton_action od.state).action = "do_not_import"
  · rw [if_pos haction] at h
    injection h with h1
    injection h1 with h2 h3
    rw [← h3]
    exact hwf
  · rw [if_neg haction] at h
    unfold saveNew at h
    by_cases hany : db.sales.any
        (fun t => keyClash t (get_sale_using_magento_data env od)) = true
    · rw [if_pos hany] at h
      dsimp only at h
      simp at h
    · rw [if_neg hany] at h
      dsimp only at h
      simp only [Bool.not_eq_true] at hany
      have hclash0 : ∀ t ∈ db.sales,
          keyClash t (get_sale_using_magento_data env od) = false := by
        intro t ht
        have := List.any_eq_false.mp hany t ht
        simpa using this
      set saleIns : Sale :=
        { (get_sale_using_magento_data env od) with id := db.nextId }
        with hsaleIns
      set dbIns : DB :=
        { db with
          sales := db.sales ++ [saleIns],
          nextId := db.nextId + 1 } with hdbIns
      have hib : saleIns.id = db.nextId := by rw [hsaleIns]
      have hic : saleIns.channel = env.current_channel := by
        rw [hsaleIns]
        exact get_sale_channel env od
      have him : saleIns.magento_id = some od.order_id := by
        rw [hsaleIns]
        exact get_sale_magento_id env od
      cases hadd : add_lines_using_magento_data env od saleIns dbIns with
      | error e => rw [hadd] at h; simp at h
      | ok p =>
        obtain ⟨sale2, db2⟩ := p
        rw [hadd] at h
        dsimp only at h
        obtain ⟨hs2, hn2, hid2, hch2, hmag2⟩ :=
          add_lines_frame env od saleIns dbIns sale2 db2 hadd
        have hdb2sales : db2.sales = db.sales ++ [saleIns] := by
          rw [hs2, hdbIns]
        have hdb2next : db2.nextId = db.nextId + 1 := by
          rw [hn2, hdbIns]
        have hbound : ∀ t ∈ db.sales, t.id < saleIns.id := by
          intro t ht
          rw [hib]
          exact hwf.1 t ht
        have hshape : (saveUpdate sale2 db2).sales = db.sales ++ [sale2] :=
          saveUpdate_shape db2 db.sales saleIns sale2 hdb2sales hbound hid2
        obtain ⟨hp1, -, hp3⟩ := create_payment_frame env sale2 od.payment
          (saveUpdate sale2 db2)
        have hclash2 : ∀ t ∈ db.sales, keyClash t sale2 = false := by
          intro t ht
          rw [keyClash_congr t sale2 (get_sale_using_magento_data env od)
            (hch2.trans (hic.trans (get_sale_channel env od).symm))
            (hmag2.trans (him.trans (get_sale_magento_id env od).symm))]
          exact hclash0 t ht
        cases hpr : env.process_to_channel_state od.state sale2 with
        | ok newstate =>
          rw [hpr] at h
          dsimp only at h
          injection h with h1
          injection h1 with h2 h3
          rw [← h3]
          refine WF_insert db _ { sale2 with state := newstate } hwf ?_ ?_ ?_ ?_
          · refine saveUpdate_shape _ db.sales sale2 _ ?_ ?_ rfl
            · rw [hp1]
              exact hshape
            · intro t ht
              rw [hid2, hib]
              exact hwf.1 t ht
          · show (create_payment_using_magento_data env sale2 od.payment
              (saveUpdate sale2 db2)).nextId = db.nextId + 1
            rw [hp3]
            show db2.nextId = db.nextId + 1
            exact hdb2next
          · show sale2.id = db.nextId
            rw [hid2, hib]
          · intro t ht
            rw [keyClash_congr t { sale2 with state := newstate } sale2 rfl rfl]
            exact hclash2 t ht
        | error msg =>
          rw [hpr] at h
          dsimp only at h
          injection h with h1
          injection h1 with h2 h3
          rw [← h3]
          refine WF_insert db _ sale2 hwf ?_ ?_ ?_ hclash2
          · show (create_payment_using_magento_data env sale2 od.payment
              (saveUpdate sale2 db2)).sales = db.sales ++ [sale2]
            rw [hp1]
            exact hshape
          · show (create_payment_using_magento_data env sale2 od.payment
              (saveUpdate sale2 db2)).nextId = db.nextId + 1
            rw [hp3]
            show db2.nextId = db.nextId + 1
            exact hdb2next
          · rw [hid2, hib]

/-- The pairwise dedup invariant yields the claim's at-most-one form: for
every remote numeric id and channel, at most one persisted sale matches. -/
theorem salesKeyUnique_at_most_one (l : List Sale) (h : salesKeyUnique l)
    (n : Int) (c : Nat) :
    (l.filter (fun s => s.magento_id == some n && s.channel == c)).length ≤ 1 := by
  induction l with
  | nil => simp
  | cons a rest ih =>
    rw [salesKeyUnique, List.pairwise_cons] at h
    obtain ⟨ha, hrest⟩ := h
    by_cases hp : (a.magento_id == some n && a.channel == c) = true
    · have hempty : rest.filter
          (fun s => s.magento_id == some n && s.channel == c) = [] := by
        rw [List.filter_eq_nil_iff]
        intro b hb hpb
        obtain ⟨ham, hac⟩ := Bool.and_eq_true_iff.mp hp
        obtain ⟨hbm, hbc⟩ := Bool.and_eq_true_iff.mp hpb
        rw [beq_iff_eq] at ham hac hbm hbc
        have hcl := ha b hb
        unfold keyClash at hcl
        rw [ham, hac, hbm, hbc] at hcl
        simp at hcl
      rw [List.filter_cons]
      rw [if_pos hp, hempty]
      simp
    · rw [List.filter_cons]
      rw [if_neg hp]
      exact ih hrest

/-! ### C1 -/

/-- C1: for every channel C and remote numeric id N, at most one local sale
exists with (magento_id = N, channel = C) in a well-formed store, and both
find-or-create paths (find_or_create_using_magento_data and
find_or_create_using_magento_increment_id) preserve this uniqueness
invariant whenever they return: the resulting store is again well-formed
and keeps the at-most-one property. -/
theorem find_or_create_preserves_uniqueness (env : Env) (od : OrderData)
    (incId : String) (db : DB) (hwf : WF db) :
    (∀ (n : Int) (c : Nat),
      (db.sales.filter
        (fun s => s.magento_id == some n && s.channel == c)).length ≤ 1) ∧
    (∀ r db1, find_or_create_using_magento_data env od db = .ok (r, db1) →
      WF db1 ∧ ∀ (n : Int) (c : Nat),
        (db1.sales.filter
          (fun s => s.magento_id == some n && s.channel == c)).length ≤ 1) ∧
    (∀ r db1,
      find_or_create_using_magento_increment_id env incId db = .ok (r, db1) →
      WF db1 ∧ ∀ (n : Int) (c : Nat),
        (db1.sales.filter
          (fun s => s.magento_id == some n && s.channel == c)).length ≤ 1) := by
  refine ⟨salesKeyUnique_at_most_one db.sales hwf.2, ?_, ?_⟩
  · intro r db1 h
    have hwf1 : WF db1 := by
      unfold find_or_create_using_magento_data at h
      cases hfind : find_using_magento_data env od db with
      | some s =>
        rw [hfind] at h
        dsimp only at h
        injection h with h1
        injection h1 with h2 h3
        rw [← h3]
        exact hwf
      | none =>
        rw [hfind] at h
        exact create_preserves_WF env od db hwf r db1 h
    exact ⟨hwf1, salesKeyUnique_at_most_one db1.sales hwf1.2⟩
  · intro r db1 h
    have hwf1 : WF db1 := by
      unfold find_or_create_using_magento_increment_id at h
      cases hfind : find_using_magento_increment_id env incId db with
      | some s =>
        rw [hfind] at h
        dsimp only at h
        injection h with h1
        injection h1 with h2 h3
        rw [← h3]
        exact hwf
      | none =>
        rw [hfind] at h
        exact create_preserves_WF env (env.order_info incId) db hwf r db1 h
    exact ⟨hwf1, salesKeyUnique_at_most_one db1.sales hwf1.2⟩

/-- Witness for C1 at the empty well-formed store. -/
theorem find_or_create_preserves_uniqueness_witness :
    (∀ (n : Int) (c : Nat),
      (emptyDB.sales.filter
        (fun s => s.magento_id == some n && s.channel == c)).length ≤ 1) ∧
    (∀ r db1,
      find_or_create_using_magento_data testEnv testOrder emptyDB =
        .ok (r, db1) →
      WF db1 ∧ ∀ (n : Int) (c : Nat),
        (db1.sales.filter
          (fun s => s.magento_id == some n && s.channel == c)).length ≤ 1) ∧
    (∀ r db1,
      find_or_create_using_magento_increment_id testEnv "100005001" emptyDB =
        .ok (r, db1) →
      WF db1 ∧ ∀ (n : Int) (c : Nat),
        (db1.sales.filter
          (fun s => s.magento_id == some n && s.channel == c)).length ≤ 1) :=
  find_or_create_preserves_uniqueness testEnv testOrder "100005001" emptyDB
    ⟨fun s hs => absurd hs (List.not_mem_nil s), List.Pairwise.nil⟩

end Magento
